import Mathlib

/-!
Verification of the pyPRMS `Parameter` data model (src/pyPRMS/Parameter.py).

A `Parameter` owns an ordered list of named dimensions and an optional numpy
array of rank 0, 1 or 2.  We embed numpy arrays as `NpData`: rank 0 is a bare
value, rank 1 a list, and rank 2 is stored as the list of its COLUMNS
(Fortran / column-major layout, the layout the code's `order='F'` calls are
built around); the element at row `i`, column `j` of `.d2 cols` is
`(cols.get j).get i`.  Python exceptions are embedded as `Except PErr`.

`ParamDimensions` lives in pyPRMS/Dimensions.py, which is not part of the
sources; its accessors (`keys`, `get`, `get_position`, `get_dimsize_by_index`,
`remove`, `add`, per-dimension `size`) are modelled from the spec, section 4.1.
-/

namespace PyPRMS

/-- A named dimension: `Dimension = {name, size}` (spec section 3). -/
structure Dimension where
  name : String
  size : Nat
deriving DecidableEq, Repr

/-- Embedding of a numpy array of rank 0, 1 or 2.  Rank-2 data is kept as the
list of columns, i.e. in Fortran (column-major) layout. -/
inductive NpData (α : Type) where
  | d0 (v : α)
  | d1 (xs : List α)
  | d2 (cols : List (List α))
deriving DecidableEq, Repr

/-- Embedding of the Python exceptions raised by Parameter.py. -/
inductive PErr where
  | valueError (msg : String)
  | indexError (msg : String)
  | keyError (msg : String)
  | typeError (msg : String)
  | attributeError (msg : String)
deriving DecidableEq, Repr

/-- A parameter bound (`minimum` / `maximum` attribute): `None`, a number, or a
string (legacy "bounded" sentinel values that fail numeric coercion). -/
inductive Bound (α : Type) where
  | none
  | num (v : α)
  | str (s : String)
deriving DecidableEq, Repr

namespace NpData

variable {α : Type}

/-- numpy `ndim`. -/
def ndim : NpData α → Nat
  | .d0 _ => 0
  | .d1 _ => 1
  | .d2 _ => 2

/-- numpy `size` (total element count). -/
def size : NpData α → Nat
  | .d0 _ => 1
  | .d1 xs => xs.length
  | .d2 cols => (cols.map List.length).sum

/-- numpy `shape`, as a list of axis lengths; for rank 2, axis 0 is the row
count (the length of each column) and axis 1 the column count. -/
def shape : NpData α → List Nat
  | .d0 _ => []
  | .d1 xs => [xs.length]
  | .d2 cols => [(cols.headD []).length, cols.length]

/-- numpy `ravel(order='F')`: flatten with axis 0 varying fastest.  In the
column layout this is simply the concatenation of the columns. -/
def ravelF : NpData α → List α
  | .d0 v => [v]
  | .d1 xs => xs
  | .d2 cols => cols.flatten

end NpData

/-- `np.array_equal`: true iff shapes and all elements agree. -/
def arrayEqual {α : Type} [DecidableEq α] : NpData α → NpData α → Bool
  | .d0 a, .d0 b => decide (a = b)
  | .d1 xs, .d1 ys => decide (xs = ys)
  | .d2 xs, .d2 ys => decide (xs = ys)
  | _, _ => false

/-- Cutting a flat list into `k` consecutive columns of length `r`: the result
of `reshape((-1, k), order='F')` applied to `xs` (column `j` holds the slice
starting at flat position `j*r`). -/
def reshapeF {α : Type} (xs : List α) (r k : Nat) : List (List α) :=
  (List.range k).map (fun j => (xs.drop (j * r)).take r)

/-- `data_np.reshape((-1, k), order='F')`: read the source in Fortran order and
refill a 2-D array with `k` columns; numpy raises ValueError when the total
size is not divisible by `k`. -/
def reshapeNeg1F {α : Type} (a : NpData α) (k : Nat) : Except PErr (NpData α) :=
  if k ≠ 0 ∧ a.size % k = 0 then
    .ok (.d2 (reshapeF a.ravelF (a.size / k) k))
  else
    .error (.valueError "cannot reshape array into shape (-1,k)")

/-- `np.array(data_np[0], ndmin=1)`: first element (rank-1 input) or first row
(rank-2 input), as an array of rank at least 1.  Indexing a 0-d scalar or an
empty axis raises IndexError, as in numpy. -/
def firstElemNdmin1 {α : Type} : NpData α → Except PErr (NpData α)
  | .d0 _ => .error (.indexError "too many indices for 0-d array")
  | .d1 [] => .error (.indexError "index 0 is out of bounds")
  | .d1 (x :: _) => .ok (.d1 [x])
  | .d2 cols =>
    if cols.all (fun c => !c.isEmpty) then
      .ok (.d1 (cols.filterMap List.head?))
    else
      .error (.indexError "index 0 is out of bounds")

/-- The error raised by the final `else` branch of the data setter
(Parameter.py line 393).  The code formats a message mentioning dimension
counts and raises IndexError. -/
def sizeMismatchErr : PErr :=
  .indexError "number of dimensions for new data does not match old"

/-- State of a pyPRMS `Parameter` (the fields touched by the data and
structural operations; `datatype`, `units` etc. are omitted as no claim
reads them).  `dimensions` is the parameter's own ordered ParamDimensions. -/
structure Parameter (α : Type) where
  name : String
  dimensions : List Dimension
  data : Option (NpData α)
  modified : Bool
  minimum : Bound α
  maximum : Bound α
deriving DecidableEq, Repr

namespace Parameter

variable {α : Type} [DecidableEq α]

/-- `Parameter.__init__`: fresh parameter with an empty DimensionSet, no data
and `modified = False` (Parameter.py lines 55-58).  Datatype-dependent
coercion of the bounds is elided (the stored bound is taken as given). -/
def mkParameter (name : String) (minimum maximum : Bound α) : Parameter α :=
  { name := name, dimensions := [], data := Option.none, modified := false,
    minimum := minimum, maximum := maximum }

/-- `self.ndims`: number of declared dimensions. -/
def ndims (p : Parameter α) : Nat := p.dimensions.length

/-- Modelled from the spec: `ParamDimensions.keys()`, the declared dimension
names in order (Dimensions.py is not in src/). -/
def dimNames (p : Parameter α) : List String := p.dimensions.map Dimension.name

/-- `self.size` (Parameter.py lines 410-416): product of the declared
dimension sizes.  The code reduces without an initial value, so it presumes
`ndims >= 1`; every caller is guarded by that check. -/
def sizeP (p : Parameter α) : Nat := (p.dimensions.map Dimension.size).prod

/-- Modelled from the spec: `ParamDimensions.get_dimsize_by_index(i)`, the
size of the dimension at position `i` (Dimensions.py is not in src/).  Only
called with `i` in range. -/
def getDimsizeByIndex (p : Parameter α) (i : Nat) : Nat :=
  ((p.dimensions.get? i).map Dimension.size).getD 0

/-- Modelled from the spec: `ParamDimensions.get_position(name)`, the
zero-based axis index of a dimension by insertion order; unknown names raise
(Dimensions.py is not in src/). -/
def getPosition (p : Parameter α) (nm : String) : Except PErr Nat :=
  match p.dimensions.findIdx? (fun d => d.name = nm) with
  | Option.some i => .ok i
  | Option.none => .error (.keyError "unknown dimension name")

/-- Modelled from the spec: `self.dimensions[name].size = sz` on the unique
dimension with that name (Dimensions.py is not in src/). -/
def setDimSize (dims : List Dimension) (nm : String) (sz : Nat) : List Dimension :=
  dims.map (fun d => if d.name = nm then { d with size := sz } else d)

/-- Modelled from the spec: `ParamDimensions.remove(name)` (Dimensions.py is
not in src/). -/
def dimsRemove (dims : List Dimension) (nm : String) : List Dimension :=
  dims.filter (fun d => d.name ≠ nm)

/-- Modelled from the spec: the `for kk, vv in new_dims.items():
self.dimensions.add(kk, vv.size)` loop; `add` appends an unseen name and
fails on a duplicate (spec section 4.1; Dimensions.py is not in src/). -/
def dimsAddAll (dims newDims : List Dimension) : Except PErr (List Dimension) :=
  match newDims with
  | [] => .ok dims
  | d :: rest =>
    if d.name ∈ dims.map Dimension.name then
      .error (.keyError "dimension already exists")
    else
      dimsAddAll (dims ++ [d]) rest

/-- Shape reconciliation step of the `data` setter (Parameter.py lines
359-393), after the incoming value has been converted to an array: compare
the incoming size with the declared total size, Fortran-reshape flat data
that is short of the declared rank, tolerate oversized data when a dimension
named "one" is declared by keeping only the first element, and raise
otherwise. -/
def reconcileData (p : Parameter α) (din : NpData α) : Except PErr (NpData α) :=
  if din.size = p.sizeP then
    if din.ndim < p.ndims then
      if din.ndim ≠ 0 then
        reshapeNeg1F din (p.getDimsizeByIndex 1)
      else
        .ok din
    else if din.ndim = p.ndims then
      .ok din
    else
      .error (.valueError "source data ndim greater than parameter ndim")
  else if p.sizeP < din.size ∧ "one" ∈ p.dimNames then
    firstElemNdmin1 din
  else
    .error sizeMismatchErr

/-- The `data` property setter (Parameter.py lines 347-403): raise when no
dimension is declared, reconcile the incoming shape, then store — keeping the
old array and leaving `modified` untouched when the reconciled data is
`np.array_equal` to the old, and setting `modified := true` otherwise. -/
def setData (p : Parameter α) (din : NpData α) : Except PErr (Parameter α) :=
  if p.ndims = 0 then
    .error (.valueError "no dimensions have been defined; unable to append data")
  else
    match reconcileData p din with
    | .error e => .error e
    | .ok dnew =>
      match p.data with
      | Option.none => .ok { p with data := Option.some dnew }
      | Option.some dold =>
        if arrayEqual dold dnew then .ok p
        else .ok { p with data := Option.some dnew, modified := true }

/-- `has_correct_size()` (Parameter.py lines 543-557): the data property
raises when no data is present; otherwise compare the element count with the
product of the declared dimension sizes. -/
def hasCorrectSize (p : Parameter α) : Except PErr Bool :=
  match p.data with
  | Option.none => .error (.valueError "parameter has no data")
  | Option.some d => .ok (decide (d.size = (p.dimensions.map Dimension.size).prod))

/-- `tolist()` (Parameter.py lines 629-638): Fortran-order ravel of the data
(a None `__data` raises). -/
def tolist (p : Parameter α) : Except PErr (List α) :=
  match p.data with
  | Option.none => .error (.attributeError "NoneType object has no attribute ravel")
  | Option.some d => .ok d.ravelF

/-- `check_values()` (Parameter.py lines 525-531): when both bounds are
present and neither is a string, every stored element must lie in
`[minimum, maximum]`; in every other case the result is True.  The numeric
comparison reads `__data` directly, so it needs data present. -/
def checkValues [LinearOrder α] (p : Parameter α) : Except PErr Bool :=
  match p.minimum, p.maximum with
  | Bound.num lo, Bound.num hi =>
    match p.data with
    | Option.none => .error (.typeError "comparison of NoneType")
    | Option.some d =>
      .ok (d.ravelF.all (fun x => decide (lo ≤ x)) && d.ravelF.all (fun x => decide (x ≤ hi)))
  | _, _ => .ok true

/-- Selection of list elements at the given positions, raising IndexError on
an out-of-range position (numpy integer fancy indexing, non-negative
indices). -/
def listSelect (xs : List α) : List Nat → Except PErr (List α)
  | [] => .ok []
  | i :: rest =>
    match xs.get? i with
    | Option.some v =>
      match listSelect xs rest with
      | .ok vs => .ok (v :: vs)
      | .error e => .error e
    | Option.none => .error (.indexError "index is out of bounds")

/-- `self.__data[indices]` with a list of indices: selects positions along
axis 0 (rank 1: elements; rank 2: rows, i.e. the given positions inside every
column). -/
def fancyIndex (d : NpData α) (indices : List Nat) : Except PErr (NpData α) :=
  match d with
  | .d0 _ => .error (.indexError "too many indices for 0-d array")
  | .d1 xs => (listSelect xs indices).map NpData.d1
  | .d2 cols => (cols.mapM (fun col => listSelect col indices)).map NpData.d2

/-- `shape[i]` with an IndexError on a rank smaller than `i + 1`. -/
def shapeGet (d : NpData α) (i : Nat) : Except PErr Nat :=
  match d.shape.get? i with
  | Option.some n => .ok n
  | Option.none => .error (.indexError "tuple index out of range")

/-- `subset_by_index(dim_name, indices)` (Parameter.py lines 614-625): return
unchanged when the array has exactly one element (logged, not raised),
otherwise keep the rows at `indices` and set the named dimension's size to
the kept axis length. -/
def subsetByIndex (p : Parameter α) (dimName : String) (indices : List Nat) :
    Except PErr (Parameter α) :=
  match p.data with
  | Option.none => .error (.attributeError "NoneType object has no attribute size")
  | Option.some d =>
    if d.size = 1 then .ok p
    else
      match fancyIndex d indices with
      | .error e => .error e
      | .ok dnew =>
        match p.getPosition dimName with
        | .error e => .error e
        | .ok pos =>
          match shapeGet dnew pos with
          | .error e => .error e
          | .ok newSize =>
            .ok { p with data := Option.some dnew,
                         dimensions := setDimSize p.dimensions dimName newSize }

/-- Removal of the given positions from a list, keeping the original order
(`np.delete` along one axis); out-of-range positions raise IndexError. -/
def listDelete (xs : List α) (indices : List Nat) : Except PErr (List α) :=
  if indices.all (fun i => decide (i < xs.length)) then
    .ok (((List.range xs.length).filter (fun i => decide (i ∉ indices))).filterMap
      (fun i => xs.get? i))
  else
    .error (.indexError "index is out of bounds")

/-- `np.delete(data, indices, axis)` for rank 1 (axis 0) and rank 2 (axis 0
removes rows, axis 1 removes columns); any other axis raises. -/
def npDelete (d : NpData α) (indices : List Nat) (axis : Nat) :
    Except PErr (NpData α) :=
  match d, axis with
  | .d1 xs, 0 => (listDelete xs indices).map NpData.d1
  | .d2 cols, 0 => (cols.mapM (fun col => listDelete col indices)).map NpData.d2
  | .d2 cols, 1 => (listDelete cols indices).map NpData.d2
  | _, _ => .error (.indexError "axis is out of bounds")

/-- `remove_by_index(dim_name, indices)` (Parameter.py lines 559-570): return
unchanged when the array has exactly one element (logged, not raised),
otherwise delete the given positions along the named dimension's axis and set
that dimension's size to the remaining axis length. -/
def removeByIndex (p : Parameter α) (dimName : String) (indices : List Nat) :
    Except PErr (Parameter α) :=
  match p.data with
  | Option.none => .error (.attributeError "NoneType object has no attribute size")
  | Option.some d =>
    if d.size = 1 then .ok p
    else
      match p.getPosition dimName with
      | .error e => .error e
      | .ok pos =>
        match npDelete d indices pos with
        | .error e => .error e
        | .ok dnew =>
          match shapeGet dnew pos with
          | .error e => .error e
          | .ok newSize =>
            .ok { p with data := Option.some dnew,
                         dimensions := setDimSize p.dimensions dimName newSize }

/-- `self.__data[index] = value`: in-place element or row assignment.
Supported combinations mirror numpy: scalar into a rank-1 slot, and scalar or
matching row into a rank-2 row; anything else raises. -/
def setAt (d : NpData α) (index : Nat) (value : NpData α) : Except PErr (NpData α) :=
  match d, value with
  | .d1 xs, .d0 v =>
    if index < xs.length then .ok (.d1 (xs.set index v))
    else .error (.indexError "index is out of bounds")
  | .d1 xs, .d1 [v] =>
    if index < xs.length then .ok (.d1 (xs.set index v))
    else .error (.indexError "index is out of bounds")
  | .d2 cols, .d0 v =>
    if index < (cols.headD []).length then .ok (.d2 (cols.map (fun col => col.set index v)))
    else .error (.indexError "index is out of bounds")
  | .d2 cols, .d1 row =>
    if index < (cols.headD []).length ∧ row.length = cols.length then
      .ok (.d2 ((cols.zip row).map (fun cv => cv.1.set index cv.2)))
    else .error (.indexError "could not broadcast row")
  | _, _ => .error (.valueError "unsupported assignment")

/-- `update_element(index, value)` (Parameter.py lines 435-444): when `value`
is `np.array_equal` to the ENTIRE stored array, do nothing; otherwise write
`value` at `index` and set `modified := true`. -/
def updateElement (p : Parameter α) (index : Nat) (value : NpData α) :
    Except PErr (Parameter α) :=
  match p.data with
  | Option.none => .error (.typeError "NoneType object does not support item assignment")
  | Option.some d =>
    if arrayEqual d value then .ok p
    else
      match setAt d index value with
      | .error e => .error e
      | .ok dnew => .ok { p with data := Option.some dnew, modified := true }

/-- `np.broadcast_to(d, sizes)` for targets of rank 1 or 2 (the shapes the
reshape method produces).  A length-1 source axis is repeated; mismatched
axes raise ValueError. -/
def broadcastTo (d : NpData α) (sizes : List Nat) : Except PErr (NpData α) :=
  match sizes with
  | [n] =>
    match d with
    | .d0 v => .ok (.d1 (List.replicate n v))
    | .d1 xs =>
      if xs.length = n then .ok (.d1 xs)
      else
        match xs with
        | [x] => .ok (.d1 (List.replicate n x))
        | _ => .error (.valueError "operands could not be broadcast together")
    | .d2 _ => .error (.valueError "input operand has more dimensions than the target")
  | [r, c] =>
    match d with
    | .d0 v => .ok (.d2 (List.replicate c (List.replicate r v)))
    | .d1 xs =>
      if xs.length = c then .ok (.d2 (xs.map (fun x => List.replicate r x)))
      else
        match xs with
        | [x] => .ok (.d2 (List.replicate c (List.replicate r x)))
        | _ => .error (.valueError "operands could not be broadcast together")
    | .d2 cols =>
      if cols.length = c ∧ (cols.headD []).length = r then .ok (.d2 cols)
      else .error (.valueError "operands could not be broadcast together")
  | _ => .error (.valueError "unsupported target shape")

/-- Matrix transpose in the column layout: column `i` of the transpose is row
`i` of the source. -/
def matTranspose (cols : List (List α)) : List (List α) :=
  (List.range (cols.headD []).length).map (fun i => cols.filterMap (fun c => c.get? i))

/-- numpy `.T` (identity below rank 2). -/
def transposeNp : NpData α → NpData α
  | .d2 cols => .d2 (matTranspose cols)
  | d => d

/-- `reshape(new_dims)` (Parameter.py lines 572-612): only 1-dimensioned
parameters are touched.  A parameter dimensioned by "one" broadcasts its
value to the new shape and its DimensionSet is replaced by `new_dims`; a 1-D
parameter whose dimension names are a subset of the new names is broadcast
(with a reversed-shape-and-transpose fallback) unless `new_dims` is itself
1-D, which only logs an error; everything else is a no-op. -/
def reshapeParam (p : Parameter α) (newDims : List Dimension) :
    Except PErr (Parameter α) :=
  if p.ndims = 1 then
    if "one" ∈ p.dimNames then
      match p.data with
      | Option.none => .error (.valueError "cannot broadcast missing data")
      | Option.some d =>
        match broadcastTo d (newDims.map Dimension.size) with
        | .error e => .error e
        | .ok dnew =>
          match dimsAddAll (dimsRemove p.dimensions "one") newDims with
          | .error e => .error e
          | .ok dims2 => .ok { p with dimensions := dims2, data := Option.some dnew }
    else if p.dimNames.all (fun nm => decide (nm ∈ newDims.map Dimension.name)) then
      if newDims.length = 1 then .ok p
      else
        match p.data with
        | Option.none => .error (.valueError "cannot broadcast missing data")
        | Option.some d =>
          match
            (match broadcastTo d (newDims.map Dimension.size) with
             | .ok dnew => Except.ok dnew
             | .error _ =>
               match broadcastTo d (newDims.map Dimension.size).reverse with
               | .ok dnew => Except.ok (transposeNp dnew)
               | .error e => Except.error e)
          with
          | .error e => .error e
          | .ok dnew =>
            match dimsAddAll (dimsRemove p.dimensions ((p.dimensions.headD (Dimension.mk "" 0)).name)) newDims with
            | .error e => .error e
            | .ok dims2 => .ok { p with dimensions := dims2, data := Option.some dnew }
    else .ok p
  else .ok p

end Parameter

end PyPRMS

/-! ### Concrete parameter states used by the per-claim theorems -/

namespace PyPRMS

/-- C1 counterexample input: "one" declared alongside "nhru" (total size 2). -/
def exC1p : Parameter Int :=
  { name := "p", dimensions := [⟨"one", 1⟩, ⟨"nhru", 2⟩], data := Option.none,
    modified := false, minimum := Bound.none, maximum := Bound.none }

/-- C1 counterexample result: the oversized input was truncated to `[5]`. -/
def exC1q : Parameter Int := { exC1p with data := Option.some (NpData.d1 [5]) }

/-- C1 witness input: a plain 1-D parameter over nhru = 3. -/
def exC1w : Parameter Int :=
  { name := "w", dimensions := [⟨"nhru", 3⟩], data := Option.none,
    modified := false, minimum := Bound.none, maximum := Bound.none }

/-- C1 witness result after assigning `[1,2,3]`. -/
def exC1wq : Parameter Int := { exC1w with data := Option.some (NpData.d1 [1, 2, 3]) }

/-- C1 witness input: a scalar parameter whose sole dimension is "one". -/
def exC1s : Parameter Int :=
  { name := "s", dimensions := [⟨"one", 1⟩], data := Option.none,
    modified := false, minimum := Bound.none, maximum := Bound.none }

/-- C1 witness result after assigning the oversized list `[9,9,9]`. -/
def exC1sq : Parameter Int := { exC1s with data := Option.some (NpData.d1 [9]) }

/-- C2 counterexample input: declared shape (2, 6) but held array of shape
(4, 3) — same element count, different shape (three columns of four). -/
def exC2p : Parameter Int :=
  { name := "q", dimensions := [⟨"a", 2⟩, ⟨"b", 6⟩],
    data := Option.some (NpData.d2 [[1, 2, 3, 4], [5, 6, 7, 8], [9, 10, 11, 12]]),
    modified := false, minimum := Bound.none, maximum := Bound.none }

/-- C2 counterexample round-trip result: the re-assigned data has shape (2, 6). -/
def exC2q : Parameter Int :=
  { exC2p with
    data := Option.some (NpData.d2 [[1, 2], [3, 4], [5, 6], [7, 8], [9, 10], [11, 12]]),
    modified := true }

/-- C2 witness input: 1-D parameter whose shape matches its declaration. -/
def exC2w1 : Parameter Int :=
  { name := "w1", dimensions := [⟨"nhru", 3⟩], data := Option.some (NpData.d1 [10, 20, 30]),
    modified := false, minimum := Bound.none, maximum := Bound.none }

/-- C2 witness input: 2-D parameter whose shape matches its declaration
(2 rows, 3 columns). -/
def exC2w2 : Parameter Int :=
  { name := "w2", dimensions := [⟨"nhru", 2⟩, ⟨"nmonths", 3⟩],
    data := Option.some (NpData.d2 [[1, 2], [3, 4], [5, 6]]),
    modified := false, minimum := Bound.none, maximum := Bound.none }

/-- C3 counterexample input: "one" declared alongside "nsegment". -/
def exC3p : Parameter Int :=
  { name := "p3", dimensions := [⟨"one", 1⟩, ⟨"nsegment", 2⟩], data := Option.none,
    modified := false, minimum := Bound.none, maximum := Bound.none }

/-- C3 counterexample result: truncation happened although "one" is not the
sole dimension. -/
def exC3q : Parameter Int := { exC3p with data := Option.some (NpData.d1 [5]) }

/-- C3 witness input: sole dimension "one". -/
def exC3w1 : Parameter Int :=
  { name := "w3a", dimensions := [⟨"one", 1⟩], data := Option.none,
    modified := false, minimum := Bound.none, maximum := Bound.none }

/-- C3 witness input: no "one" dimension, oversized data must raise. -/
def exC3w2 : Parameter Int :=
  { name := "w3b", dimensions := [⟨"nhru", 1⟩], data := Option.none,
    modified := false, minimum := Bound.none, maximum := Bound.none }

/-- C3 witness input: matching size, no truncation. -/
def exC3w3 : Parameter Int :=
  { name := "w3c", dimensions := [⟨"nhru", 2⟩], data := Option.none,
    modified := false, minimum := Bound.none, maximum := Bound.none }

/-- C4 counterexample input: scalar parameter, sole dimension "one". -/
def exC4p : Parameter Int :=
  { name := "p4", dimensions := [⟨"one", 1⟩], data := Option.none,
    modified := false, minimum := Bound.none, maximum := Bound.none }

/-- C4 counterexample result: the rank-2 input was accepted and its first row
stored. -/
def exC4q : Parameter Int := { exC4p with data := Option.some (NpData.d1 [1, 3]) }

/-- C4 witness input: 1-D parameter over nhru = 4, not eligible for the
"one"-truncation tolerance. -/
def exC4w : Parameter Int :=
  { name := "w4", dimensions := [⟨"nhru", 4⟩], data := Option.none,
    modified := false, minimum := Bound.none, maximum := Bound.none }

/-- C5 witness input: parameter with data `[1, 2]`. -/
def exC5p : Parameter Int :=
  { name := "p5", dimensions := [⟨"nhru", 2⟩], data := Option.some (NpData.d1 [1, 2]),
    modified := false, minimum := Bound.none, maximum := Bound.none }

/-- C5 witness input: same as `exC5p` but already modified. -/
def exC5m : Parameter Int := { exC5p with modified := true }

/-- C5 witness input: freshly declared parameter with no data yet. -/
def exC5f : Parameter Int :=
  { name := "f5", dimensions := [⟨"nhru", 2⟩], data := Option.none,
    modified := false, minimum := Bound.none, maximum := Bound.none }

/-- C6 witness input: numeric bounds [0, 10], data [5, 11]. -/
def exC6p : Parameter Int :=
  { name := "p6", dimensions := [⟨"nhru", 2⟩], data := Option.some (NpData.d1 [5, 11]),
    modified := false, minimum := Bound.num 0, maximum := Bound.num 10 }

/-- C6 witness input: a string (sentinel) maximum bound. -/
def exC6s : Parameter Int :=
  { name := "p6b", dimensions := [⟨"nhru", 2⟩], data := Option.some (NpData.d1 [5, 11]),
    modified := false, minimum := Bound.num 0, maximum := Bound.str "ndepl" }

/-- C7 witness input: singleton array. -/
def exC7p : Parameter Int :=
  { name := "p7", dimensions := [⟨"one", 1⟩], data := Option.some (NpData.d1 [42]),
    modified := false, minimum := Bound.none, maximum := Bound.none }

/-- C8 witness input: the spec scenario, data `[12, 4, 45, 26]` over nhru = 4. -/
def exC8p : Parameter Int :=
  { name := "p8", dimensions := [⟨"nhru", 4⟩], data := Option.some (NpData.d1 [12, 4, 45, 26]),
    modified := false, minimum := Bound.none, maximum := Bound.none }

/-- C9 witness input: the spec scenario, scalar value 8 over dimension "one". -/
def exC9p : Parameter Int :=
  { name := "p9", dimensions := [⟨"one", 1⟩], data := Option.some (NpData.d1 [8]),
    modified := false, minimum := Bound.none, maximum := Bound.none }

/-- C10 witness input: data `[3, 3]`, so writing 3 at index 0 rewrites an
equal element. -/
def exC10p : Parameter Int :=
  { name := "p10", dimensions := [⟨"nhru", 2⟩], data := Option.some (NpData.d1 [3, 3]),
    modified := false, minimum := Bound.none, maximum := Bound.none }

end PyPRMS

/-! ### Helper lemmas about the embedded numpy operations -/

namespace PyPRMS

theorem reshapeF_zero {α : Type} (xs : List α) (r : Nat) : reshapeF xs r 0 = [] := rfl

theorem reshapeF_succ {α : Type} (xs : List α) (r k : Nat) :
    reshapeF xs r (k + 1) = xs.take r :: reshapeF (xs.drop r) r k := by
  unfold reshapeF
  rw [List.range_succ_eq_map, List.map_cons, List.map_map]
  congr 1
  · simp
  · apply List.map_congr_left
    intro j hj
    simp only [Function.comp_apply, List.drop_drop]
    congr 2
    rw [Nat.succ_mul, Nat.add_comm]

theorem sum_map_length_eq {α : Type} (cols : List (List α)) (r : Nat)
    (h : ∀ col ∈ cols, col.length = r) :
    (cols.map List.length).sum = cols.length * r := by
  induction cols with
  | nil => simp
  | cons c rest ih =>
    simp only [List.map_cons, List.sum_cons, List.length_cons]
    rw [h c (List.mem_cons_self c rest), ih (fun col hc => h col (List.mem_cons_of_mem c hc))]
    ring

theorem reshapeF_flatten {α : Type} (cols : List (List α)) (r : Nat)
    (h : ∀ col ∈ cols, col.length = r) :
    reshapeF cols.flatten r cols.length = cols := by
  induction cols with
  | nil => rfl
  | cons c rest ih =>
    have hc : c.length = r := h c (List.mem_cons_self c rest)
    simp only [List.flatten_cons, List.length_cons]
    rw [reshapeF_succ]
    congr 1
    · rw [← hc, List.take_left]
    · rw [← hc, List.drop_left, hc]
      exact ih (fun col hcol => h col (List.mem_cons_of_mem c hcol))

theorem flatten_reshapeF {α : Type} (r : Nat) :
    ∀ (k : Nat) (xs : List α), xs.length = r * k → (reshapeF xs r k).flatten = xs := by
  intro k
  induction k with
  | zero =>
    intro xs h
    rw [Nat.mul_zero] at h
    rw [reshapeF_zero, List.flatten_nil]
    exact (List.length_eq_zero.mp h).symm
  | succ k ih =>
    intro xs h
    rw [reshapeF_succ, List.flatten_cons, ih (xs.drop r) ?hlen, List.take_append_drop]
    case hlen =>
      rw [List.length_drop, h, Nat.mul_succ]
      omega

theorem ravelF_length {α : Type} (d : NpData α) : d.ravelF.length = d.size := by
  cases d with
  | d0 v => rfl
  | d1 xs => rfl
  | d2 cols => simp [NpData.ravelF, NpData.size, List.length_flatten]

theorem arrayEqual_refl {α : Type} [DecidableEq α] (d : NpData α) :
    arrayEqual d d = true := by
  cases d <;> simp [arrayEqual]

theorem arrayEqual_size {α : Type} [DecidableEq α] {a b : NpData α}
    (h : arrayEqual a b = true) : a.size = b.size := by
  cases a <;> cases b <;> simp [arrayEqual] at h <;> simp [NpData.size, h]

end PyPRMS

namespace PyPRMS

/-- Successful reconciliation of data whose element count already matches the
declared total size preserves the element count. -/
theorem reconcile_size_eq {α : Type} [DecidableEq α] (p : Parameter α)
    (din dnew : NpData α) (hsz : din.size = p.sizeP)
    (h : p.reconcileData din = .ok dnew) : dnew.size = p.sizeP := by
  unfold Parameter.reconcileData at h
  rw [if_pos hsz] at h
  by_cases h1 : din.ndim < p.ndims
  · rw [if_pos h1] at h
    by_cases h2 : din.ndim ≠ 0
    · rw [if_pos h2] at h
      unfold reshapeNeg1F at h
      by_cases h3 : p.getDimsizeByIndex 1 ≠ 0 ∧ din.size % p.getDimsizeByIndex 1 = 0
      · rw [if_pos h3] at h
        cases h
        have hdvd : p.getDimsizeByIndex 1 ∣ din.size := Nat.dvd_of_mod_eq_zero h3.2
        have hlen : din.ravelF.length = din.size / p.getDimsizeByIndex 1 * p.getDimsizeByIndex 1 := by
          rw [ravelF_length, Nat.div_mul_cancel hdvd]
        calc (NpData.d2 (reshapeF din.ravelF (din.size / p.getDimsizeByIndex 1)
                (p.getDimsizeByIndex 1))).size
            = (reshapeF din.ravelF (din.size / p.getDimsizeByIndex 1)
                (p.getDimsizeByIndex 1)).flatten.length := by
              simp [NpData.size, List.length_flatten]
          _ = din.ravelF.length := by
              rw [flatten_reshapeF _ _ _ hlen]
          _ = p.sizeP := by rw [ravelF_length, hsz]
      · rw [if_neg h3] at h
        simp at h
    · rw [if_neg h2] at h
      cases h
      exact hsz
  · rw [if_neg h1] at h
    by_cases h4 : din.ndim = p.ndims
    · rw [if_pos h4] at h
      cases h
      exact hsz
    · rw [if_neg h4] at h
      simp at h

/-- A successful reconciliation that does not meet the oversized-"one"
truncation condition matches the declared total size exactly, and its result
keeps that size. -/
theorem reconcile_no_trunc_size {α : Type} [DecidableEq α] (p : Parameter α)
    (din dnew : NpData α)
    (hnt : ¬ (p.sizeP < din.size ∧ "one" ∈ p.dimNames))
    (h : p.reconcileData din = .ok dnew) :
    din.size = p.sizeP ∧ dnew.size = p.sizeP := by
  by_cases hsz : din.size = p.sizeP
  · exact ⟨hsz, reconcile_size_eq p din dnew hsz h⟩
  · exfalso
    unfold Parameter.reconcileData at h
    rw [if_neg hsz, if_neg hnt] at h
    simp at h

/-- Anatomy of a successful `data` assignment: the reconciled array is stored
when no data was present or when it differs from the old array (then with
`modified := true`), and the parameter is returned untouched when the
reconciled array equals the old one. -/
theorem setData_ok_cases {α : Type} [DecidableEq α] (p : Parameter α)
    (din : NpData α) (q : Parameter α) (h : p.setData din = .ok q) :
    ∃ dnew, p.reconcileData din = .ok dnew ∧
      ((p.data = Option.none ∧ q = { p with data := Option.some dnew }) ∨
       (∃ dold, p.data = Option.some dold ∧ arrayEqual dold dnew = true ∧ q = p) ∨
       (∃ dold, p.data = Option.some dold ∧ arrayEqual dold dnew = false ∧
          q = { p with data := Option.some dnew, modified := true })) := by
  unfold Parameter.setData at h
  by_cases h0 : p.ndims = 0
  · rw [if_pos h0] at h
    simp at h
  · rw [if_neg h0] at h
    cases hrec : p.reconcileData din with
    | error e =>
      rw [hrec] at h
      simp at h
    | ok dnew =>
      rw [hrec] at h
      dsimp only at h
      refine ⟨dnew, rfl, ?_⟩
      cases hd : p.data with
      | none =>
        rw [hd] at h
        dsimp only at h
        cases h
        exact Or.inl ⟨rfl, rfl⟩
      | some dold =>
        rw [hd] at h
        dsimp only at h
        by_cases he : arrayEqual dold dnew = true
        · rw [if_pos he] at h
          cases h
          exact Or.inr (Or.inl ⟨dold, rfl, he, rfl⟩)
        · rw [if_neg he] at h
          cases h
          exact Or.inr (Or.inr ⟨dold, rfl, Bool.eq_false_iff.mpr he, rfl⟩)

end PyPRMS

namespace PyPRMS

/-- A successful assignment of data that reconciles to something
`np.array_equal` to the old array returns the parameter unchanged (old
storage kept, `modified` untouched). -/
theorem setData_eq_keep {α : Type} [DecidableEq α] (p : Parameter α)
    (din dold dnew : NpData α) (h0 : ¬ p.ndims = 0)
    (hd : p.data = Option.some dold) (hrec : p.reconcileData din = .ok dnew)
    (he : arrayEqual dold dnew = true) :
    p.setData din = .ok p := by
  unfold Parameter.setData
  rw [if_neg h0, hrec]
  dsimp only
  rw [hd]
  dsimp only
  rw [if_pos he]

/-- A successful assignment of data that reconciles to something different
from the old array stores the new array and sets `modified := true`. -/
theorem setData_eq_new {α : Type} [DecidableEq α] (p : Parameter α)
    (din dold dnew : NpData α) (h0 : ¬ p.ndims = 0)
    (hd : p.data = Option.some dold) (hrec : p.reconcileData din = .ok dnew)
    (he : arrayEqual dold dnew = false) :
    p.setData din = .ok { p with data := Option.some dnew, modified := true } := by
  unfold Parameter.setData
  rw [if_neg h0, hrec]
  dsimp only
  rw [hd]
  dsimp only
  rw [if_neg (by rw [he]; exact Bool.false_ne_true)]

/-- A first assignment (no pre-existing data) stores the reconciled array and
leaves `modified` untouched. -/
theorem setData_eq_first {α : Type} [DecidableEq α] (p : Parameter α)
    (din dnew : NpData α) (h0 : ¬ p.ndims = 0)
    (hd : p.data = Option.none) (hrec : p.reconcileData din = .ok dnew) :
    p.setData din = .ok { p with data := Option.some dnew } := by
  unfold Parameter.setData
  rw [if_neg h0, hrec]
  dsimp only
  rw [hd]

/-- The data setter either keeps `modified` or sets it to `true`. -/
theorem setData_modified {α : Type} [DecidableEq α] (p : Parameter α)
    (din : NpData α) (q : Parameter α) (h : p.setData din = .ok q) :
    q.modified = p.modified ∨ q.modified = true := by
  obtain ⟨dnew, -, hc⟩ := setData_ok_cases p din q h
  rcases hc with ⟨-, rfl⟩ | ⟨dold, -, -, rfl⟩ | ⟨dold, -, -, rfl⟩
  · exact Or.inl rfl
  · exact Or.inl rfl
  · exact Or.inr rfl

/-- `update_element` either keeps `modified` or sets it to `true`. -/
theorem updateElement_modified {α : Type} [DecidableEq α] (p : Parameter α)
    (i : Nat) (v : NpData α) (q : Parameter α)
    (h : p.updateElement i v = .ok q) :
    q.modified = p.modified ∨ q.modified = true := by
  unfold Parameter.updateElement at h
  repeat' split at h
  all_goals first
    | (cases h; exact Or.inl rfl)
    | (cases h; exact Or.inr rfl)
    | simp_all

/-- `subset_by_index` never touches `modified`. -/
theorem subsetByIndex_modified {α : Type} [DecidableEq α] (p : Parameter α)
    (nm : String) (idx : List Nat) (q : Parameter α)
    (h : p.subsetByIndex nm idx = .ok q) : q.modified = p.modified := by
  unfold Parameter.subsetByIndex at h
  repeat' split at h
  all_goals first
    | (cases h; rfl)
    | simp_all

/-- `remove_by_index` never touches `modified`. -/
theorem removeByIndex_modified {α : Type} [DecidableEq α] (p : Parameter α)
    (nm : String) (idx : List Nat) (q : Parameter α)
    (h : p.removeByIndex nm idx = .ok q) : q.modified = p.modified := by
  unfold Parameter.removeByIndex at h
  repeat' split at h
  all_goals first
    | (cases h; rfl)
    | simp_all

/-- `reshape` never touches `modified`. -/
theorem reshapeParam_modified {α : Type} [DecidableEq α] (p : Parameter α)
    (nd : List Dimension) (q : Parameter α)
    (h : p.reshapeParam nd = .ok q) : q.modified = p.modified := by
  unfold Parameter.reshapeParam at h
  repeat' split at h
  all_goals first
    | (cases h; rfl)
    | simp_all

end PyPRMS

namespace PyPRMS

/-- Setting a position to the value it already holds leaves a list unchanged. -/
theorem list_set_of_get? {α : Type} :
    ∀ (xs : List α) (i : Nat) (v : α), xs.get? i = Option.some v → xs.set i v = xs := by
  intro xs
  induction xs with
  | nil => intro i v h; simp at h
  | cons a rest ih =>
    intro i v h
    cases i with
    | zero =>
      simp only [List.get?_cons_zero, Option.some.injEq] at h
      rw [List.set_cons_zero, h]
    | succ n =>
      simp only [List.get?_cons_succ] at h
      rw [List.set_cons_succ, ih n v h]

/-- Fancy selection with in-range indices returns the elements at those
positions, in order. -/
theorem listSelect_ok {α : Type} (xs : List α) (dflt : α) :
    ∀ (indices : List Nat), (∀ i ∈ indices, i < xs.length) →
      Parameter.listSelect xs indices = .ok (indices.map (fun i => xs.getD i dflt)) := by
  intro indices
  induction indices with
  | nil => intro h; rfl
  | cons i rest ih =>
    intro h
    have hi : i < xs.length := h i (List.mem_cons_self i rest)
    have hget : xs.get? i = Option.some (xs.getD i dflt) := by
      rw [List.getD_eq_get?, List.get?_eq_get hi]
      rfl
    unfold Parameter.listSelect
    rw [hget]
    dsimp only
    rw [ih (fun j hj => h j (List.mem_cons_of_mem i hj))]
    rfl

/-- Broadcasting a one-element rank-1 array to a rank-2 shape fills every
position with the single value. -/
theorem broadcastTo_single_d1 {α : Type} (v : α) (r c : Nat) :
    Parameter.broadcastTo (NpData.d1 [v]) [r, c] =
      .ok (NpData.d2 (List.replicate c (List.replicate r v))) := by
  unfold Parameter.broadcastTo
  dsimp only
  by_cases hc : c = 1
  · subst hc
    rw [if_pos (by simp)]
    rfl
  · rw [if_neg (by simp; omega)]

/-- Removing "one" from the singleton DimensionSet `["one"]` empties it. -/
theorem dimsRemove_one (s : Nat) :
    Parameter.dimsRemove [⟨"one", s⟩] "one" = [] := by
  rfl

/-- Adding two distinct fresh dimension names to an empty DimensionSet yields
exactly those dimensions, in order. -/
theorem dimsAddAll_pair (a b : String) (r c : Nat) (hab : a ≠ b) :
    Parameter.dimsAddAll [] [⟨a, r⟩, ⟨b, c⟩] = .ok [⟨a, r⟩, ⟨b, c⟩] := by
  unfold Parameter.dimsAddAll
  rw [if_neg (by simp)]
  unfold Parameter.dimsAddAll
  rw [if_neg (by
    simp only [List.nil_append, List.map_cons, List.map_nil, List.mem_singleton]
    exact fun h => hab h.symm)]
  rfl

end PyPRMS

/-! ### Claim theorems -/

namespace PyPRMS

/-- C7: for every Parameter whose stored array has exactly one element,
`remove_by_index` and `subset_by_index` return without raising and leave the
parameter (data and every dimension size) completely unchanged, for any
arguments. -/
theorem C7_singleton_guard (p : Parameter Int) (d : NpData Int)
    (dimName : String) (indices : List Nat)
    (hd : p.data = Option.some d) (h1 : d.size = 1) :
    p.removeByIndex dimName indices = .ok p ∧
    p.subsetByIndex dimName indices = .ok p := by
  constructor
  · unfold Parameter.removeByIndex
    rw [hd]
    dsimp only
    rw [if_pos h1]
  · unfold Parameter.subsetByIndex
    rw [hd]
    dsimp only
    rw [if_pos h1]

/-- C7 witness: a singleton parameter survives both structural edits
untouched, even with junk arguments. -/
theorem C7_singleton_guard_witness :
    exC7p.removeByIndex "one" [0, 5] = .ok exC7p ∧
    exC7p.subsetByIndex "nothere" [3] = .ok exC7p :=
  ⟨(C7_singleton_guard exC7p (NpData.d1 [42]) "one" [0, 5] rfl rfl).1,
   (C7_singleton_guard exC7p (NpData.d1 [42]) "nothere" [3] rfl rfl).2⟩

/-- C10: `update_element` compares the new value against the ENTIRE stored
array; a scalar value is never array-equal to a multi-element array, so the
write always sets `modified := true` — also when the value equals the element
already stored at that index, in which case the data itself is unchanged. -/
theorem C10_update_element (p : Parameter Int) (xs : List Int) (index : Nat)
    (v : Int) (hd : p.data = Option.some (NpData.d1 xs)) (hlen : 1 < xs.length)
    (hi : index < xs.length) :
    arrayEqual (NpData.d1 xs) (NpData.d0 v) = false ∧
    p.updateElement index (NpData.d0 v) =
      .ok { p with data := Option.some (NpData.d1 (xs.set index v)), modified := true } ∧
    (xs.get? index = Option.some v →
      p.updateElement index (NpData.d0 v) = .ok { p with modified := true }) := by
  have hne : arrayEqual (NpData.d1 xs) (NpData.d0 v) = false := rfl
  have hupd : p.updateElement index (NpData.d0 v) =
      .ok { p with data := Option.some (NpData.d1 (xs.set index v)), modified := true } := by
    unfold Parameter.updateElement
    rw [hd]
    dsimp only
    rw [if_neg (by rw [hne]; exact Bool.false_ne_true)]
    unfold Parameter.setAt
    dsimp only
    rw [if_pos hi]
  refine ⟨hne, hupd, fun hxv => ?_⟩
  rw [hupd, list_set_of_get? xs index v hxv, ← hd]

/-- C10 witness: writing 3 over the existing 3 at index 0 of `[3, 3]` leaves
the data unchanged but still sets `modified`. -/
theorem C10_update_element_witness :
    exC10p.updateElement 0 (NpData.d0 3) = .ok { exC10p with modified := true } :=
  (C10_update_element exC10p [3, 3] 0 3 rfl (by decide) (by decide)).2.2 rfl

/-- C8: on a 1-D parameter with more than one element, `subset_by_index`
replaces the array by exactly the elements at the given positions, in the
given order, and sets the dimension's size to the number of kept elements. -/
theorem C8_subset_by_index (p : Parameter Int) (nm : String) (n : Nat)
    (xs : List Int) (indices : List Nat)
    (hdims : p.dimensions = [⟨nm, n⟩])
    (hd : p.data = Option.some (NpData.d1 xs))
    (hlen : 1 < xs.length)
    (hidx : ∀ i ∈ indices, i < xs.length) :
    p.subsetByIndex nm indices =
      .ok { p with
              data := Option.some (NpData.d1 (indices.map (fun i => xs.getD i 0))),
              dimensions := [⟨nm, indices.length⟩] } := by
  unfold Parameter.subsetByIndex
  rw [hd]
  dsimp only
  rw [if_neg (by simp [NpData.size]; omega)]
  unfold Parameter.fancyIndex
  dsimp only
  rw [listSelect_ok xs 0 indices hidx]
  dsimp only [Except.map]
  have hpos : p.getPosition nm = .ok 0 := by
    unfold Parameter.getPosition
    rw [hdims]
    rw [List.findIdx?_cons]
    simp
  rw [hpos]
  dsimp only
  unfold Parameter.shapeGet
  dsimp only [NpData.shape]
  rw [List.get?_cons_zero]
  dsimp only
  rw [List.length_map]
  congr 1
  rw [hdims]
  unfold Parameter.setDimSize
  simp

/-- C8 witness: the spec scenario — data `[12, 4, 45, 26]`, indices `[0, 2]`
give stored data `[12, 45]` and dimension size 2. -/
theorem C8_subset_by_index_witness :
    exC8p.subsetByIndex "nhru" [0, 2] =
      .ok { exC8p with data := Option.some (NpData.d1 [12, 45]),
                       dimensions := [⟨"nhru", 2⟩] } :=
  C8_subset_by_index exC8p "nhru" 4 [12, 4, 45, 26] [0, 2] rfl rfl (by decide)
    (by decide)

end PyPRMS

namespace PyPRMS

/-- C6: with data present, `check_values()` returns False exactly when both
bounds are numeric and some stored value falls outside `[minimum, maximum]`,
and returns True whenever a bound is unset or is a (sentinel) string. -/
theorem C6_check_values (p : Parameter Int) (d : NpData Int)
    (hd : p.data = Option.some d) :
    (p.checkValues = .ok false ↔
       ∃ lo hi : Int, p.minimum = Bound.num lo ∧ p.maximum = Bound.num hi ∧
         ∃ x ∈ d.ravelF, x < lo ∨ hi < x) ∧
    ((p.minimum = Bound.none ∨ p.maximum = Bound.none ∨
        (∃ s, p.minimum = Bound.str s) ∨ (∃ s, p.maximum = Bound.str s)) →
      p.checkValues = .ok true) := by
  cases hmin : p.minimum with
  | num lo =>
    cases hmax : p.maximum with
    | num hi =>
      have hb : p.checkValues =
          Except.ok ((d.ravelF.all fun x => decide (lo ≤ x)) &&
                     (d.ravelF.all fun x => decide (x ≤ hi))) := by
        unfold Parameter.checkValues
        rw [hmin, hmax]
        dsimp only
        rw [hd]
      constructor
      · rw [hb]
        simp only [Except.ok.injEq]
        constructor
        · intro hfalse
          rcases Bool.and_eq_false_iff.mp hfalse with ha | ha
          · obtain ⟨x, hx, hxp⟩ := List.all_eq_false.mp ha
            exact ⟨lo, hi, rfl, rfl, x, hx, Or.inl (by simpa using hxp)⟩
          · obtain ⟨x, hx, hxp⟩ := List.all_eq_false.mp ha
            exact ⟨lo, hi, rfl, rfl, x, hx, Or.inr (by simpa using hxp)⟩
        · rintro ⟨lo2, hi2, he1, he2, x, hx, hout⟩
          injection he1 with he1
          injection he2 with he2
          subst he1
          subst he2
          apply Bool.and_eq_false_iff.mpr
          rcases hout with hout | hout
          · exact Or.inl (List.all_eq_false.mpr ⟨x, hx, by simpa using hout⟩)
          · exact Or.inr (List.all_eq_false.mpr ⟨x, hx, by simpa using hout⟩)
      · rintro (h | h | ⟨s, h⟩ | ⟨s, h⟩) <;> exact absurd h (by simp)
    | none =>
      have hb : p.checkValues = .ok true := by
        unfold Parameter.checkValues
        rw [hmin, hmax]
      refine ⟨?_, fun _ => hb⟩
      rw [hb]
      simp
    | str s =>
      have hb : p.checkValues = .ok true := by
        unfold Parameter.checkValues
        rw [hmin, hmax]
      refine ⟨?_, fun _ => hb⟩
      rw [hb]
      simp
  | none =>
    have hb : p.checkValues = .ok true := by
      unfold Parameter.checkValues
      rw [hmin]
    refine ⟨?_, fun _ => hb⟩
    rw [hb]
    simp
  | str s =>
    have hb : p.checkValues = .ok true := by
      unfold Parameter.checkValues
      rw [hmin]
    refine ⟨?_, fun _ => hb⟩
    rw [hb]
    simp

/-- C6 witness: with bounds [0, 10] and data [5, 11] check_values is False;
with a string maximum it is True for the same data. -/
theorem C6_check_values_witness :
    exC6p.checkValues = .ok false ∧ exC6s.checkValues = .ok true :=
  ⟨(C6_check_values exC6p (NpData.d1 [5, 11]) rfl).1.mpr
      ⟨0, 10, rfl, rfl, 11, by decide, Or.inr (by decide)⟩,
   (C6_check_values exC6s (NpData.d1 [5, 11]) rfl).2
      (Or.inr (Or.inr (Or.inr ⟨"ndepl", rfl⟩)))⟩

end PyPRMS

namespace PyPRMS

/-- A successful assignment that does not go through the oversized-"one"
truncation branch leaves the stored element count equal to the declared total
size. -/
theorem setData_correct_of_no_trunc (p : Parameter Int) (din : NpData Int)
    (q : Parameter Int)
    (hnt : ¬ (p.sizeP < din.size ∧ "one" ∈ p.dimNames))
    (hok : p.setData din = .ok q) :
    q.hasCorrectSize = .ok true := by
  obtain ⟨dnew, hrec, hc⟩ := setData_ok_cases p din q hok
  obtain ⟨-, hsznew⟩ := reconcile_no_trunc_size p din dnew hnt hrec
  unfold Parameter.sizeP at hsznew
  rcases hc with ⟨-, rfl⟩ | ⟨dold, hdo, he, rfl⟩ | ⟨dold, -, -, rfl⟩
  · unfold Parameter.hasCorrectSize
    dsimp only
    simp only [Except.ok.injEq, decide_eq_true_eq]
    exact hsznew
  · have hsz := arrayEqual_size he
    unfold Parameter.hasCorrectSize
    rw [hdo]
    simp only [Except.ok.injEq, decide_eq_true_eq]
    rw [hsz]
    exact hsznew
  · unfold Parameter.hasCorrectSize
    dsimp only
    simp only [Except.ok.injEq, decide_eq_true_eq]
    exact hsznew

/-- C1 (amended): after any data assignment that completes without raising,
`has_correct_size()` is true, provided the assignment does not take the
oversized-"one" truncation branch; a parameter whose SOLE dimension is "one"
(of size 1) also satisfies it for any 1-D input, truncated or not. -/
theorem C1_amended :
    (∀ (p : Parameter Int) (din : NpData Int) (q : Parameter Int),
       ¬ (p.sizeP < din.size ∧ "one" ∈ p.dimNames) →
       p.setData din = .ok q → q.hasCorrectSize = .ok true) ∧
    (∀ (p : Parameter Int) (xs : List Int) (q : Parameter Int),
       p.dimensions = [⟨"one", 1⟩] →
       p.setData (NpData.d1 xs) = .ok q → q.hasCorrectSize = .ok true) := by
  refine ⟨fun p din q hnt hok => setData_correct_of_no_trunc p din q hnt hok, ?_⟩
  intro p xs q hdims hok
  by_cases ht : p.sizeP < (NpData.d1 xs).size ∧ "one" ∈ p.dimNames
  · have hszP : p.sizeP = 1 := by
      unfold Parameter.sizeP
      rw [hdims]
      rfl
    have hxs : 1 < xs.length := by
      have h1 := ht.1
      rw [hszP] at h1
      simpa [NpData.size] using h1
    obtain ⟨x, rest, rfl⟩ : ∃ x rest, xs = x :: rest := by
      cases xs with
      | nil => simp at hxs
      | cons a t => exact ⟨a, t, rfl⟩
    simp only [List.length_cons] at hxs
    have hne : ¬ ((NpData.d1 (x :: rest)).size = p.sizeP) := by
      intro hcontra
      rw [hszP] at hcontra
      have h2 : (x :: rest).length = 1 := hcontra
      simp only [List.length_cons] at h2
      omega
    have hrec : p.reconcileData (NpData.d1 (x :: rest)) = .ok (NpData.d1 [x]) := by
      unfold Parameter.reconcileData
      rw [if_neg hne, if_pos ht]
      rfl
    obtain ⟨dnew, hrec2, hc⟩ := setData_ok_cases p _ q hok
    rw [hrec] at hrec2
    injection hrec2 with hrec2
    subst hrec2
    have hprod : (p.dimensions.map Dimension.size).prod = 1 := by
      rw [hdims]
      rfl
    rcases hc with ⟨-, rfl⟩ | ⟨dold, hdo, he, rfl⟩ | ⟨dold, -, -, rfl⟩
    · unfold Parameter.hasCorrectSize
      dsimp only
      simp [NpData.size, hprod]
    · have hsz := arrayEqual_size he
      unfold Parameter.hasCorrectSize
      rw [hdo]
      simp only [Except.ok.injEq, decide_eq_true_eq]
      rw [hsz, hprod]
      rfl
    · unfold Parameter.hasCorrectSize
      dsimp only
      simp [NpData.size, hprod]
  · exact setData_correct_of_no_trunc p _ q ht hok

/-- C1 counterexample: a parameter declaring "one" ALONGSIDE "nhru" (total
size 2) accepts the oversized list `[5, 6, 7]` without raising — the data is
truncated to `[5]` — after which `has_correct_size()` is False.  The claim
that every raise-free assignment leaves `has_correct_size()` true is
therefore false. -/
theorem C1_counterexample :
    exC1p.setData (NpData.d1 [5, 6, 7]) = .ok exC1q ∧
    exC1q.hasCorrectSize = .ok false := by
  constructor
  · rfl
  · rfl

/-- C1 witness: a non-truncating assignment (nhru = 3, three values) and a
truncating assignment on a sole-"one" parameter both end with
`has_correct_size()` true. -/
theorem C1_amended_witness :
    exC1wq.hasCorrectSize = .ok true ∧ exC1sq.hasCorrectSize = .ok true :=
  ⟨C1_amended.1 exC1w (NpData.d1 [1, 2, 3]) exC1wq (by decide) rfl,
   C1_amended.2 exC1s [9, 9, 9] exC1sq rfl rfl⟩

/-- C3 (amended): the data setter truncates to the first element exactly when
the incoming element count exceeds the declared total size and "one" is AMONG
the declared dimension names — whether or not it is the sole dimension;
oversized data without a "one" dimension raises the size-mismatch IndexError,
and data that is not oversized is never truncated (a successful
reconciliation keeps its element count). -/
theorem C3_amended :
    (∀ (p : Parameter Int) (din : NpData Int), p.sizeP < din.size →
       ("one" ∈ p.dimNames → p.reconcileData din = firstElemNdmin1 din) ∧
       ("one" ∉ p.dimNames → p.reconcileData din = .error sizeMismatchErr)) ∧
    (∀ (p : Parameter Int) (din dnew : NpData Int),
       din.size ≤ p.sizeP → p.reconcileData din = .ok dnew →
       dnew.size = din.size) := by
  constructor
  · intro p din hlt
    have hne : ¬ (din.size = p.sizeP) := by omega
    constructor
    · intro hmem
      unfold Parameter.reconcileData
      rw [if_neg hne, if_pos ⟨hlt, hmem⟩]
    · intro hnm
      unfold Parameter.reconcileData
      rw [if_neg hne, if_neg (fun hh => hnm hh.2)]
  · intro p din dnew hle hok
    rcases Nat.lt_or_ge din.size p.sizeP with hlt | hge
    · exfalso
      unfold Parameter.reconcileData at hok
      rw [if_neg (by omega), if_neg (fun hh => by omega)] at hok
      simp at hok
    · have heq : din.size = p.sizeP := Nat.le_antisymm hle hge
      rw [heq]
      exact reconcile_size_eq p din dnew heq hok

/-- C3 counterexample: `exC3p` declares "one" alongside "nsegment" — "one" is
NOT its sole dimension — yet assigning the oversized `[5, 6, 7]` takes the
truncation path: it completes without raising and stores `[5]`.  The claim
that such parameters do not take the truncation path is therefore false. -/
theorem C3_counterexample :
    exC3p.setData (NpData.d1 [5, 6, 7]) = .ok exC3q ∧
    Parameter.dimNames exC3p ≠ ["one"] := by
  constructor
  · rfl
  · decide

/-- C3 witness: oversized data truncates when "one" is declared, raises the
size-mismatch error when it is not, and a size-matching assignment keeps its
element count. -/
theorem C3_amended_witness :
    exC3w1.reconcileData (NpData.d1 [7, 8]) = firstElemNdmin1 (NpData.d1 [7, 8]) ∧
    exC3w2.reconcileData (NpData.d1 [7, 8]) = .error sizeMismatchErr ∧
    (NpData.d1 ([1, 2] : List Int)).size = (NpData.d1 ([1, 2] : List Int)).size :=
  ⟨(C3_amended.1 exC3w1 (NpData.d1 [7, 8]) (by decide)).1 (by decide),
   (C3_amended.1 exC3w2 (NpData.d1 [7, 8]) (by decide)).2 (by decide),
   C3_amended.2 exC3w3 (NpData.d1 [1, 2]) (NpData.d1 [1, 2]) (by decide) rfl⟩

/-- C4 (amended): assigning data whose rank exceeds the declared number of
dimensions fails — UNLESS the element count exceeds the declared total size
and "one" is among the declared dimensions, in which case the truncation
branch can accept it. -/
theorem C4_amended (p : Parameter Int) (din : NpData Int)
    (hr : p.ndims < din.ndim)
    (hnt : ¬ (p.sizeP < din.size ∧ "one" ∈ p.dimNames)) :
    ∃ e, p.setData din = .error e := by
  by_cases h0 : p.ndims = 0
  · refine ⟨.valueError "no dimensions have been defined; unable to append data", ?_⟩
    unfold Parameter.setData
    rw [if_pos h0]
  · have hrec : ∃ e, p.reconcileData din = .error e := by
      unfold Parameter.reconcileData
      by_cases hsz : din.size = p.sizeP
      · rw [if_pos hsz, if_neg (by omega), if_neg (by omega)]
        exact ⟨_, rfl⟩
      · rw [if_neg hsz, if_neg hnt]
        exact ⟨_, rfl⟩
    obtain ⟨e, he⟩ := hrec
    refine ⟨e, ?_⟩
    unfold Parameter.setData
    rw [if_neg h0, he]

/-- C4 counterexample: a scalar parameter (sole dimension "one") assigned a
2x2 array — rank 2 against declared rank 1 — does NOT fail: the truncation
branch stores the first row `[1, 3]`. -/
theorem C4_counterexample :
    (NpData.d2 [[1, 2], [3, 4]] : NpData Int).ndim = 2 ∧
    Parameter.ndims exC4p = 1 ∧
    exC4p.setData (NpData.d2 [[1, 2], [3, 4]]) = .ok exC4q := by
  refine ⟨rfl, rfl, rfl⟩

/-- C4 witness: the same 2x2 array against a 1-D nhru = 4 parameter (count 4
equals the total, so no truncation) raises. -/
theorem C4_amended_witness :
    ∃ e, exC4w.setData (NpData.d2 [[1, 2], [3, 4]]) = .error e :=
  C4_amended exC4w (NpData.d2 [[1, 2], [3, 4]]) (by decide) (by decide)

end PyPRMS

namespace PyPRMS

/-- C2 (amended): `tolist()` followed by re-assignment through the data
setter reproduces the parameter bit-for-bit — old storage kept, `modified`
untouched — provided the held array's SHAPE (not merely its element count)
matches the declared dimensions: a 1-D array over one dimension of matching
size, or a 2-D array over two dimensions matching its row and (positive)
column counts. -/
theorem C2_amended :
    (∀ (p : Parameter Int) (nm : String) (n : Nat) (xs : List Int),
       p.dimensions = [⟨nm, n⟩] → p.data = Option.some (NpData.d1 xs) →
       xs.length = n →
       p.tolist = .ok xs ∧ p.setData (NpData.d1 xs) = .ok p) ∧
    (∀ (p : Parameter Int) (nm0 nm1 : String) (r c : Nat) (cols : List (List Int)),
       p.dimensions = [⟨nm0, r⟩, ⟨nm1, c⟩] → p.data = Option.some (NpData.d2 cols) →
       cols.length = c → (∀ col ∈ cols, col.length = r) → 0 < c →
       p.tolist = .ok cols.flatten ∧ p.setData (NpData.d1 cols.flatten) = .ok p) := by
  constructor
  · intro p nm n xs hdims hd hlen
    constructor
    · unfold Parameter.tolist
      rw [hd]
      rfl
    · have hsz : (NpData.d1 xs).size = p.sizeP := by
        unfold Parameter.sizeP
        rw [hdims]
        show xs.length = ([n] : List Nat).prod
        simp [hlen]
      have hnd : p.ndims = 1 := by
        unfold Parameter.ndims
        rw [hdims]
        rfl
      have hrec : p.reconcileData (NpData.d1 xs) = .ok (NpData.d1 xs) := by
        unfold Parameter.reconcileData
        rw [if_pos hsz, if_neg (by rw [hnd]; exact lt_irrefl 1), if_pos (by rw [hnd]; rfl)]
      exact setData_eq_keep p _ _ _ (by rw [hnd]; omega) hd hrec (arrayEqual_refl _)
  · intro p nm0 nm1 r c cols hdims hd hc hcols hcpos
    have hflat : cols.flatten.length = c * r := by
      rw [List.length_flatten, sum_map_length_eq cols r hcols, hc]
    have hszP : p.sizeP = r * c := by
      unfold Parameter.sizeP
      rw [hdims]
      show ([r, c] : List Nat).prod = r * c
      simp
    have hsz : (NpData.d1 cols.flatten).size = p.sizeP := by
      show cols.flatten.length = p.sizeP
      rw [hflat, hszP, Nat.mul_comm]
    have hnd : p.ndims = 2 := by
      unfold Parameter.ndims
      rw [hdims]
      rfl
    have hk : p.getDimsizeByIndex 1 = c := by
      unfold Parameter.getDimsizeByIndex
      rw [hdims]
      rfl
    have hrec : p.reconcileData (NpData.d1 cols.flatten) = .ok (NpData.d2 cols) := by
      unfold Parameter.reconcileData
      rw [if_pos hsz, if_pos (by rw [hnd]; exact Nat.one_lt_two),
          if_pos (by exact Nat.one_ne_zero)]
      unfold reshapeNeg1F
      rw [hk]
      have hmod : (NpData.d1 cols.flatten).size % c = 0 := by
        show cols.flatten.length % c = 0
        rw [hflat]
        exact Nat.mul_mod_right c r
      rw [if_pos ⟨by omega, hmod⟩]
      have hdiv : (NpData.d1 cols.flatten).size / c = r := by
        show cols.flatten.length / c = r
        rw [hflat]
        exact Nat.mul_div_cancel_left r hcpos
      rw [hdiv]
      show Except.ok (NpData.d2 (reshapeF cols.flatten r c)) = Except.ok (NpData.d2 cols)
      rw [← hc, reshapeF_flatten cols r hcols]
    constructor
    · unfold Parameter.tolist
      rw [hd]
      rfl
    · exact setData_eq_keep p _ _ _ (by rw [hnd]; omega) hd hrec (arrayEqual_refl _)

/-- C2 counterexample: a parameter declaring dimensions of sizes (2, 6) but
holding a (4, 3)-shaped array — equal element counts, different shape — does
not round-trip: re-assigning `tolist()` stores a (2, 6) array, different from
the original. -/
theorem C2_counterexample :
    exC2p.tolist = .ok [1, 2, 3, 4, 5, 6, 7, 8, 9, 10, 11, 12] ∧
    exC2p.setData (NpData.d1 [1, 2, 3, 4, 5, 6, 7, 8, 9, 10, 11, 12]) = .ok exC2q ∧
    exC2q.data ≠ exC2p.data := by
  refine ⟨rfl, rfl, by decide⟩

/-- C2 witness: shape-matching 1-D and 2-D parameters round-trip exactly. -/
theorem C2_amended_witness :
    (exC2w1.tolist = .ok [10, 20, 30] ∧
     exC2w1.setData (NpData.d1 [10, 20, 30]) = .ok exC2w1) ∧
    (exC2w2.tolist = .ok [1, 2, 3, 4, 5, 6] ∧
     exC2w2.setData (NpData.d1 [1, 2, 3, 4, 5, 6]) = .ok exC2w2) :=
  ⟨C2_amended.1 exC2w1 "nhru" 3 [10, 20, 30] rfl rfl rfl,
   C2_amended.2 exC2w2 "nhru" "nmonths" 2 3 [[1, 2], [3, 4], [5, 6]] rfl rfl rfl
     (by decide) (by decide)⟩

/-- C9: reshaping a parameter whose single dimension is "one" against two new
dimensions replaces the DimensionSet by exactly those dimensions, in order,
and broadcasts the stored single value to every element of the new shape. -/
theorem C9_reshape_scalar (p : Parameter Int) (s r c : Nat) (v : Int)
    (a b : String)
    (hdims : p.dimensions = [⟨"one", s⟩])
    (hd : p.data = Option.some (NpData.d1 [v]) ∨ p.data = Option.some (NpData.d0 v))
    (hab : a ≠ b) :
    p.reshapeParam [⟨a, r⟩, ⟨b, c⟩] =
      .ok { p with dimensions := [⟨a, r⟩, ⟨b, c⟩],
                   data := Option.some (NpData.d2 (List.replicate c (List.replicate r v))) } := by
  have h1 : p.ndims = 1 := by
    unfold Parameter.ndims
    rw [hdims]
    rfl
  have hone : "one" ∈ p.dimNames := by
    unfold Parameter.dimNames
    rw [hdims]
    simp
  have hrm : Parameter.dimsRemove p.dimensions "one" = [] := by
    rw [hdims]
    rfl
  unfold Parameter.reshapeParam
  rw [if_pos h1, if_pos hone]
  rcases hd with hd | hd <;> rw [hd] <;> dsimp only
  · simp only [List.map_cons, List.map_nil]
    rw [broadcastTo_single_d1 v r c]
    dsimp only
    rw [hrm, dimsAddAll_pair a b r c hab]
  · simp only [List.map_cons, List.map_nil]
    have hb0 : Parameter.broadcastTo (NpData.d0 v) [r, c] =
        .ok (NpData.d2 (List.replicate c (List.replicate r v))) := rfl
    rw [hb0]
    dsimp only
    rw [hrm, dimsAddAll_pair a b r c hab]

/-- C9 witness: the spec scenario — scalar 8 reshaped against nhru = 4 and
nmonths = 12 yields a 4x12 array of 8s and dimensions exactly those two. -/
theorem C9_reshape_scalar_witness :
    exC9p.reshapeParam [⟨"nhru", 4⟩, ⟨"nmonths", 12⟩] =
      .ok { exC9p with dimensions := [⟨"nhru", 4⟩, ⟨"nmonths", 12⟩],
                       data := Option.some (NpData.d2 (List.replicate 12 (List.replicate 4 8))) } :=
  C9_reshape_scalar exC9p 1 4 12 8 "nhru" "nmonths" rfl (Or.inl rfl) (by decide)

end PyPRMS

namespace PyPRMS

/-- C5: the `modified` flag is false on a fresh parameter and stays false
through a first assignment; assigning data whose reconciled value is
array-equal (full equality, as `np.array_equal`) to the stored data returns
the parameter untouched — old storage, `modified` unchanged; a differing
value replaces the storage and sets `modified := true`; and once `modified`
is true, no operation of the class (data setter, update_element,
subset_by_index, remove_by_index, reshape) ever resets it to false. -/
theorem C5_modified_flag :
    (∀ (nm : String) (lo hi : Bound Int),
       (Parameter.mkParameter nm lo hi).modified = false) ∧
    (∀ (p : Parameter Int) (din : NpData Int) (q : Parameter Int),
       p.data = Option.none → p.modified = false →
       p.setData din = .ok q → q.modified = false) ∧
    (∀ (p : Parameter Int) (din dold dnew : NpData Int),
       p.data = Option.some dold → ¬ p.ndims = 0 →
       p.reconcileData din = .ok dnew → arrayEqual dold dnew = true →
       p.setData din = .ok p) ∧
    (∀ (p : Parameter Int) (din dold dnew : NpData Int),
       p.data = Option.some dold → ¬ p.ndims = 0 →
       p.reconcileData din = .ok dnew → arrayEqual dold dnew = false →
       p.setData din = .ok { p with data := Option.some dnew, modified := true }) ∧
    (∀ (p q : Parameter Int), p.modified = true →
       (∀ din, p.setData din = .ok q → q.modified = true) ∧
       (∀ i v, p.updateElement i v = .ok q → q.modified = true) ∧
       (∀ nm idx, p.subsetByIndex nm idx = .ok q → q.modified = true) ∧
       (∀ nm idx, p.removeByIndex nm idx = .ok q → q.modified = true) ∧
       (∀ nd, p.reshapeParam nd = .ok q → q.modified = true)) := by
  refine ⟨fun nm lo hi => rfl, ?_, ?_, ?_, ?_⟩
  · intro p din q hdn hmod hok
    obtain ⟨dnew, -, hc⟩ := setData_ok_cases p din q hok
    rcases hc with ⟨-, rfl⟩ | ⟨dold, hdo, -, rfl⟩ | ⟨dold, hdo, -, rfl⟩
    · exact hmod
    · exact hmod
    · rw [hdn] at hdo
      exact absurd hdo (by simp)
  · exact fun p din dold dnew hd h0 hrec he => setData_eq_keep p din dold dnew h0 hd hrec he
  · exact fun p din dold dnew hd h0 hrec he => setData_eq_new p din dold dnew h0 hd hrec he
  · intro p q hmod
    refine ⟨?_, ?_, ?_, ?_, ?_⟩
    · intro din hok
      rcases setData_modified p din q hok with h | h
      · rw [h, hmod]
      · exact h
    · intro i v hok
      rcases updateElement_modified p i v q hok with h | h
      · rw [h, hmod]
      · exact h
    · intro nm idx hok
      rw [subsetByIndex_modified p nm idx q hok, hmod]
    · intro nm idx hok
      rw [removeByIndex_modified p nm idx q hok, hmod]
    · intro nd hok
      rw [reshapeParam_modified p nd q hok, hmod]

/-- C5 witness: a fresh parameter and a first assignment leave `modified`
false; re-assigning equal data returns the parameter unchanged; a differing
value stores it with `modified := true`; a modified parameter stays modified
through a no-op update_element. -/
theorem C5_modified_flag_witness :
    (Parameter.mkParameter "x" (Bound.none : Bound Int) Bound.none).modified = false ∧
    ({ exC5f with data := Option.some (NpData.d1 [4, 5]) } : Parameter Int).modified = false ∧
    exC5p.setData (NpData.d1 [1, 2]) = .ok exC5p ∧
    exC5p.setData (NpData.d1 [1, 3]) =
      .ok { exC5p with data := Option.some (NpData.d1 [1, 3]), modified := true } ∧
    exC5m.modified = true :=
  ⟨C5_modified_flag.1 "x" Bound.none Bound.none,
   C5_modified_flag.2.1 exC5f (NpData.d1 [4, 5])
     { exC5f with data := Option.some (NpData.d1 [4, 5]) } rfl rfl rfl,
   C5_modified_flag.2.2.1 exC5p (NpData.d1 [1, 2]) (NpData.d1 [1, 2]) (NpData.d1 [1, 2])
     rfl (by decide) rfl (by decide),
   C5_modified_flag.2.2.2.1 exC5p (NpData.d1 [1, 3]) (NpData.d1 [1, 2]) (NpData.d1 [1, 3])
     rfl (by decide) rfl (by decide),
   ((C5_modified_flag.2.2.2.2 exC5m exC5m rfl).2.1 0 (NpData.d1 [1, 2]) rfl)⟩

end PyPRMS
